import Mathlib

/-!
Verification development for the showdoc_mcp Android code-generation core
(src/android_codegen): schema inference (entity_schema.py), name resolution
(generator.py, utils.py) and the persisted file manifest (version_control.py).

Python values flowing through this pipeline are JSON-shaped: the model below
embeds them as an inductive `Json`.  Python dicts are modelled as association
lists with unique keys and insertion-order semantics (`dictInsert` replaces the
value of an existing key in place, otherwise appends).  Python `None` and JSON
null are the same runtime value; helpers that embed `dict.get` collapse a null
value to `Option.none` exactly as the source's `is not None` checks observe it.
-/

/-- A Python/JSON runtime value as seen by the generator.
`float m e` is the decimal literal m·10^e (floating point values are only ever
inspected for their kind and truthiness by this code).  `other` stands for a
Python object of a kind the analyzer does not recognise (not None, bool, int,
float, str, list or dict). -/
inductive Json where
  | null
  | bool (b : Bool)
  | int (n : Int)
  | float (m : Int) (e : Int)
  | str (s : String)
  | arr (elems : List Json)
  | obj (fields : List (String × Json))
  | other

/-- Python truthiness of a value (`if value:`): None, False, 0, 0.0, "", [] and
\x7b\x7d are falsy; objects of unrecognised kinds are truthy by default. -/
def pyTruthy : Json → Bool
  | .null => false
  | .bool b => b
  | .int n => n != 0
  | .float m _ => m != 0
  | .str s => s != ""
  | .arr l => !l.isEmpty
  | .obj l => !l.isEmpty
  | .other => true

/-- `key in d` on a Python dict. -/
def hKey (fields : List (String × Json)) (k : String) : Bool :=
  fields.any (fun kv => kv.1 == k)

/-- `d[key]` on a Python dict, defaulting to null when the key is absent
(callers only use it under an `hKey` guard). -/
def getVal (fields : List (String × Json)) (k : String) : Json :=
  match fields.find? (fun kv => kv.1 == k) with
  | some kv => kv.2
  | none => .null

/-- Collapse a JSON null to `none`: a Python expression holding this value is
`None`, which is what `is not None` checks and truthiness tests observe. -/
def pyOpt : Json → Option Json
  | .null => none
  | j => some j

/-- `d.get(key)` on a Python dict: absent key or a null value both yield
Python `None`. -/
def pyGet (fields : List (String × Json)) (k : String) : Option Json :=
  match fields.find? (fun kv => kv.1 == k) with
  | some kv => pyOpt kv.2
  | none => none

/-- `d.get(key, default)` on a Python dict (the raw stored value; null stays
null because the key is present). -/
def pyGetD (fields : List (String × Json)) (k : String) (dflt : Json) : Json :=
  match fields.find? (fun kv => kv.1 == k) with
  | some kv => kv.2
  | none => dflt

/-- `d[key] = v` on a Python dict: replace in place if the key exists,
otherwise append (insertion order). -/
def dictInsert (m : List (String × α)) (k : String) (v : α) : List (String × α) :=
  match m with
  | [] => [(k, v)]
  | (k', v') :: rest => if k' == k then (k, v) :: rest else (k', v') :: dictInsert rest k v

/-- `d.update(d2)` on Python dicts. -/
def dictUpdate (m m2 : List (String × α)) : List (String × α) :=
  m2.foldl (fun acc kv => dictInsert acc kv.1 kv.2) m

/-- Lookup in the association-list model of a dict. -/
def dictLookup (m : List (String × α)) (k : String) : Option α :=
  match m.find? (fun kv => kv.1 == k) with
  | some kv => some kv.2
  | none => none

/-!
## Python value equality

`==` on Python values as the generator's dataclasses and dicts use it:
dict equality is key-set plus value equality (order-insensitive, keys unique),
numbers compare numerically across bool/int/float, and two values of
unrecognised kinds stand for the same unknown object when compared (the model
cannot distinguish two different unknown objects; the claims never compare
them).
-/

/-- Numeric equality of the decimal literals m1·10^e1 and m2·10^e2. -/
def numEq (m1 e1 m2 e2 : Int) : Bool :=
  if e2 ≤ e1 then m1 * (10 : Int) ^ (e1 - e2).toNat == m2
  else m1 == m2 * (10 : Int) ^ (e2 - e1).toNat

mutual

/-- Python `==` on JSON-shaped values. -/
def jsonBeq : Json → Json → Bool
  | .null, .null => true
  | .bool a, .bool b => a == b
  | .bool a, .int n => (if a then (1 : Int) else 0) == n
  | .int n, .bool a => n == (if a then (1 : Int) else 0)
  | .bool a, .float m e => numEq (if a then 1 else 0) 0 m e
  | .float m e, .bool a => numEq m e (if a then 1 else 0) 0
  | .int a, .int b => a == b
  | .int a, .float m e => numEq a 0 m e
  | .float m e, .int a => numEq m e a 0
  | .float m1 e1, .float m2 e2 => numEq m1 e1 m2 e2
  | .str a, .str b => a == b
  | .arr xs, .arr ys => jsonListBeq xs ys
  | .obj xs, .obj ys => xs.length == ys.length && jsonObjSub xs ys
  | .other, .other => true
  | _, _ => false

def jsonListBeq : List Json → List Json → Bool
  | [], [] => true
  | x :: xs, y :: ys => jsonBeq x y && jsonListBeq xs ys
  | _, _ => false

def jsonObjSub : List (String × Json) → List (String × Json) → Bool
  | [], _ => true
  | kv :: rest, ys =>
      (match ys.find? (fun kv2 => kv2.1 == kv.1) with
       | some kv2 => jsonBeq kv.2 kv2.2
       | none => false) && jsonObjSub rest ys

end

/-- Python `==` on `Optional` values (None equals only None). -/
def optJsonBeq : Option Json → Option Json → Bool
  | none, none => true
  | some a, some b => jsonBeq a b
  | _, _ => false

/-!
## String helpers

The Python string operations the generator uses, implemented by structural
recursion over `List Char` (ASCII semantics; the inputs this pipeline feeds
them — URL paths, field names, type names — are ASCII).
-/

/-- A `\w` character of Python's `re` (ASCII). -/
def isWordChar (c : Char) : Bool := c.isAlphanum || c == '_'

/-- Python `str.capitalize()`: first character uppercased, the rest lowercased. -/
def pyCapitalize : List Char → List Char
  | [] => []
  | c :: rest => c.toUpper :: rest.map Char.toLower

/-- Python `str.lower()`. -/
def pyLower (s : String) : String := String.mk (s.toList.map Char.toLower)

/-- Python `str.strip()` (whitespace both ends). -/
def pyStrip (s : String) : String :=
  String.mk (((s.toList.dropWhile Char.isWhitespace).reverse.dropWhile Char.isWhitespace).reverse)

/-- Python `str.rstrip(chars)` restricted to one character. -/
def pyRstripChar (c : Char) (s : String) : String :=
  String.mk ((s.toList.reverse.dropWhile (fun x => x == c)).reverse)

/-- Python `str.split(sep)` for a one-character separator: never drops empty
pieces, and yields `[""]` on the empty string. -/
def splitOnChar (c : Char) : List Char → List (List Char)
  | [] => [[]]
  | x :: rest =>
    let r := splitOnChar c rest
    if x == c then [] :: r
    else
      match r with
      | h :: t => (x :: h) :: t
      | [] => [[x]]

/-- `re.split` on a character class given as a predicate (same never-drop
semantics as `splitOnChar`). -/
def splitOnPred (p : Char → Bool) : List Char → List (List Char)
  | [] => [[]]
  | x :: rest =>
    let r := splitOnPred p rest
    if p x then [] :: r
    else
      match r with
      | h :: t => (x :: h) :: t
      | [] => [[x]]

def isPrefixOfList : List Char → List Char → Bool
  | [], _ => true
  | _ :: _, [] => false
  | p :: ps, x :: xs => p == x && isPrefixOfList ps xs

/-- `sub in s` on Python strings. -/
def containsSub (pat : List Char) : List Char → Bool
  | [] => isPrefixOfList pat []
  | x :: rest => isPrefixOfList pat (x :: rest) || containsSub pat rest

/-- One step of `str.replace`: fuel-indexed scan (the fuel is the length of the
scanned list plus one, which is always sufficient for a nonempty pattern; the
generator never calls `replace` with an empty pattern). -/
def replaceAllF (pat rep : List Char) : Nat → List Char → List Char
  | 0, s => s
  | _ + 1, [] => []
  | fuel + 1, x :: rest =>
    if isPrefixOfList pat (x :: rest) && !pat.isEmpty then
      rep ++ replaceAllF pat rep fuel ((x :: rest).drop pat.length)
    else
      x :: replaceAllF pat rep fuel rest

/-- Python `str.replace(old, new)` (all occurrences, left to right). -/
def pyReplace (s old new : String) : String :=
  String.mk (replaceAllF old.toList new.toList (s.toList.length + 1) s.toList)

/-- Python `str.endswith(suffix)`. -/
def pyEndsWith (s suffix : String) : Bool :=
  isPrefixOfList suffix.toList.reverse s.toList.reverse

/-- Python `s[:-n]` for n ≤ len(s). -/
def pyDropRight (s : String) (n : Nat) : String :=
  String.mk (s.toList.take (s.toList.length - n))

/-- `"sep".join(parts)`. -/
def joinSep (sep : List Char) : List (List Char) → List Char
  | [] => []
  | [p] => p
  | p :: rest => p ++ sep ++ joinSep sep rest

/-!
## `json.loads`

A fuel-indexed JSON parser embedding the subset of `json.loads` behaviour the
generator relies on: values, objects (duplicate keys keep the first position
and the last value, as Python dicts do), arrays, strings with simple
backslash escapes (`\uXXXX` escapes are not modelled; no input in this
development uses them), integers, decimal/exponent floats, and the three
literals.  Trailing garbage makes the whole parse fail, like `json.loads`
raising.  The fuel is twice the input length, which the grammar can never
exhaust.
-/

def isJsonWs (c : Char) : Bool := c == ' ' || c == '\t' || c == '\n' || c == '\r'

def skipWs (s : List Char) : List Char := s.dropWhile isJsonWs

def parseStringRest : Nat → List Char → Option (List Char × List Char)
  | 0, _ => none
  | _ + 1, [] => none
  | fuel + 1, c :: rest =>
    if c == '"' then some ([], rest)
    else if c == '\\' then
      match rest with
      | e :: rest2 =>
        let ec :=
          if e == 'n' then '\n' else if e == 't' then '\t'
          else if e == 'r' then '\r' else if e == 'b' then Char.ofNat 8
          else if e == 'f' then Char.ofNat 12 else e
        (parseStringRest fuel rest2).map (fun p => (ec :: p.1, p.2))
      | [] => none
    else (parseStringRest fuel rest).map (fun p => (c :: p.1, p.2))

def digitsToNat (ds : List Char) : Nat :=
  ds.foldl (fun acc c => acc * 10 + (c.toNat - 48)) 0

def parseExp (m : Int) (baseE : Int) (s : List Char) : Option (Json × List Char) :=
  let (eneg, s1) :=
    match s with
    | '-' :: r => (true, r)
    | '+' :: r => (false, r)
    | _ => (false, s)
  let ds := s1.takeWhile Char.isDigit
  if ds.isEmpty then none
  else
    let ev : Int := if eneg then -(digitsToNat ds : Int) else (digitsToNat ds : Int)
    some (.float m (baseE + ev), s1.dropWhile Char.isDigit)

def parseNumber (s : List Char) : Option (Json × List Char) :=
  let (neg, s1) :=
    match s with
    | '-' :: r => (true, r)
    | _ => (false, s)
  let ds := s1.takeWhile Char.isDigit
  let s2 := s1.dropWhile Char.isDigit
  if ds.isEmpty then none
  else
    let intPart : Int := if neg then -(digitsToNat ds : Int) else (digitsToNat ds : Int)
    match s2 with
    | '.' :: r =>
      let fs := r.takeWhile Char.isDigit
      let s3 := r.dropWhile Char.isDigit
      if fs.isEmpty then none
      else
        let m : Int :=
          (if neg then -1 else 1) * ((digitsToNat ds * 10 ^ fs.length + digitsToNat fs : Nat) : Int)
        match s3 with
        | e :: r2 =>
          if e == 'e' || e == 'E' then parseExp m (-(fs.length : Int)) r2
          else some (.float m (-(fs.length : Int)), s3)
        | [] => some (.float m (-(fs.length : Int)), [])
    | e :: r2 =>
      if e == 'e' || e == 'E' then parseExp intPart 0 r2
      else some (.int intPart, s2)
    | [] => some (.int intPart, [])

mutual

def parseValue : Nat → List Char → Option (Json × List Char)
  | 0, _ => none
  | fuel + 1, s =>
    match skipWs s with
    | 'n' :: 'u' :: 'l' :: 'l' :: rest => some (.null, rest)
    | 't' :: 'r' :: 'u' :: 'e' :: rest => some (.bool true, rest)
    | 'f' :: 'a' :: 'l' :: 's' :: 'e' :: rest => some (.bool false, rest)
    | '"' :: rest => (parseStringRest (rest.length + 1) rest).map (fun p => (.str (String.mk p.1), p.2))
    | '[' :: rest =>
      (match skipWs rest with
       | ']' :: r2 => some (.arr [], r2)
       | _ => parseArrTail fuel (skipWs rest) [])
    | '{' :: rest =>
      (match skipWs rest with
       | '}' :: r2 => some (.obj [], r2)
       | _ => parseObjTail fuel (skipWs rest) [])
    | rest => parseNumber rest

def parseArrTail : Nat → List Char → List Json → Option (Json × List Char)
  | 0, _, _ => none
  | fuel + 1, s, acc =>
    match parseValue fuel s with
    | some (v, rest) =>
      (match skipWs rest with
       | ',' :: r2 => parseArrTail fuel r2 (acc ++ [v])
       | ']' :: r2 => some (.arr (acc ++ [v]), r2)
       | _ => none)
    | none => none

def parseObjTail : Nat → List Char → List (String × Json) → Option (Json × List Char)
  | 0, _, _ => none
  | fuel + 1, s, acc =>
    match skipWs s with
    | '"' :: rest =>
      (match parseStringRest (rest.length + 1) rest with
       | some (key, r1) =>
         (match skipWs r1 with
          | ':' :: r2 =>
            (match parseValue fuel r2 with
             | some (v, r3) =>
               (match skipWs r3 with
                | ',' :: r4 => parseObjTail fuel r4 (dictInsert acc (String.mk key) v)
                | '}' :: r4 => some (.obj (dictInsert acc (String.mk key) v), r4)
                | _ => none)
             | none => none)
          | _ => none)
       | none => none)
    | _ => none

end

/-- `json.loads`: parse a complete JSON document; any failure (or trailing
data) is a raised exception in the source, `none` here. -/
def jsonLoads (s : String) : Option Json :=
  match parseValue (2 * s.toList.length + 2) s.toList with
  | some (v, rest) => if (skipWs rest).isEmpty then some v else none
  | none => none

/-!
## utils.py — name sanitation

`translate_chinese_to_english` is embedded on its CJK-free path: for input with
no CJK character the source deterministically strips everything but word
characters and hyphens (defaulting to "item"); the CJK path delegates to
external translation services (network I/O) and is outside this embedding.
All names flowing through the claims are CJK-free.
-/

def translate_chinese_to_english (text : String) : String :=
  if text == "" then ""
  else
    let r := text.toList.filter (fun c => isWordChar c || c == '-')
    if r.isEmpty then "item" else String.mk r

/-- to_pascal_case (utils.py): translate, split on non-word characters,
capitalize each word; empty → "Item". -/
def to_pascal_case (text : String) : String :=
  let text := translate_chinese_to_english text
  let words :=
    (splitOnPred (fun c => c == '_' || !isWordChar c) text.toList).filter (fun w => !w.isEmpty)
  if words.isEmpty then "Item"
  else String.mk (words.foldr (fun w acc => pyCapitalize w ++ acc) [])

def kotlinKeywords : List String :=
  ["val", "var", "fun", "class", "object", "interface",
   "if", "else", "when", "for", "while", "do", "try", "catch",
   "return", "break", "continue", "null", "true", "false",
   "this", "super", "is", "as", "in", "out", "typealias",
   "package", "import", "typeof"]

/-- sanitize_class_name (utils.py). -/
def sanitize_class_name (name : String) : String :=
  let name := to_pascal_case name
  let name := if kotlinKeywords.contains (pyLower name) then name ++ "Type" else name
  match name.toList with
  | [] => name
  | c :: _ => if !c.isAlpha then "A" ++ name else name

/-- Scan up to the first closing brace: `some (inner, after)` when one exists. -/
def splitAtClose : List Char → Option (List Char × List Char)
  | [] => none
  | c :: rest =>
    if c == '}' then some ([], rest)
    else (splitAtClose rest).map (fun p => (c :: p.1, p.2))

/-- One fuel-indexed pass of `re.sub(r'\{[^}]+\}', '', p)`: remove every
brace-delimited run with nonempty inner text, left to right. -/
def removeBracesF : Nat → List Char → List Char
  | 0, s => s
  | _ + 1, [] => []
  | fuel + 1, c :: rest =>
    if c == '{' then
      match splitAtClose rest with
      | some (inner, after) =>
        if inner.isEmpty then c :: removeBracesF fuel rest
        else removeBracesF fuel after
      | none => c :: removeBracesF fuel rest
    else c :: removeBracesF fuel rest

def removeBraceParams (s : List Char) : List Char := removeBracesF (s.length + 1) s

/-- url_path_to_class_name (utils.py): strip protocol/query/template noise,
take the last `depth` path segments, drop `\x7b...\x7d` parameters, split each
segment on underscores/hyphens and capitalize. -/
def url_path_to_class_name (url suffix : String) (depth : Nat) : String :=
  let cleanUrl :=
    if containsSub ("://".toList) url.toList then
      let parts := splitOnChar '/' url.toList
      if parts.length > 3 then String.mk (['/'] ++ joinSep ['/'] (parts.drop 3)) else "/"
    else url
  let cleanUrl :=
    if containsSub ['?'] cleanUrl.toList then
      String.mk ((splitOnChar '?' cleanUrl.toList).headD [])
    else cleanUrl
  let cleanUrl :=
    pyStrip (pyReplace (pyReplace cleanUrl "\x7b\x7bbaseurl\x7d\x7d" "") "\x7b\x7bbaseUrl\x7d\x7d" "")
  let parts := (splitOnChar '/' (pyRstripChar '/' cleanUrl).toList).filter (fun p => !p.isEmpty)
  if parts.isEmpty then "Api" ++ suffix
  else
    let depth := if depth > parts.length then parts.length else depth
    let selected := (parts.drop (parts.length - depth)).map removeBraceParams
    let selected := selected.filter (fun p => !p.isEmpty)
    if selected.isEmpty then "Api" ++ suffix
    else
      let classNameParts := selected.foldr (fun part acc =>
        ((splitOnPred (fun c => c == '_' || c == '-') part).filter
          (fun sub => !sub.isEmpty)).map pyCapitalize ++ acc) []
      let className :=
        if classNameParts.isEmpty then "Api" else String.mk (classNameParts.foldr (· ++ ·) [])
      if suffix != "" && !pyEndsWith className suffix then className ++ suffix else className

/-!
## entity_schema.py — schema inference
-/

/-- generate_nested_entity_name (entity_schema.py). -/
def generate_nested_entity_name (field_name base_name : String) : String :=
  let clean_base_name := if pyEndsWith base_name "Bean" then pyDropRight base_name 4 else base_name
  if field_name != "" then
    let class_name := sanitize_class_name field_name
    if !pyEndsWith class_name "Bean" then class_name ++ "Bean" else class_name
  else clean_base_name ++ "ItemBean"

structure FieldType where
  type : String
  nullable : Bool
deriving DecidableEq

/-- The per-entity schema dict: field name → \x7btype, nullable\x7d. -/
abbrev Schema := List (String × FieldType)

/-- The nested_entities dict: nested entity name → Schema. -/
abbrev NestedMap := List (String × Schema)

/-- The dict analyze_value returns for one value. -/
structure FieldInfo where
  type : String
  nullable : Bool
  nested : Option (String × Schema)
deriving DecidableEq

mutual

/-- The analyze_value(value, field_name) closure of analyze_entity_schema; the
closed-over mutable nested_entities dict is threaded explicitly. -/
def analyze_value (base_name : String) : Json → String → NestedMap → FieldInfo × NestedMap
  | .null, _, st => (⟨"Any?", true, none⟩, st)
  | .bool _, _, st => (⟨"Boolean", false, none⟩, st)
  | .int _, _, st => (⟨"Int", false, none⟩, st)
  | .float _ _, _, st => (⟨"Double", false, none⟩, st)
  | .str _, _, st => (⟨"String", false, none⟩, st)
  | .arr [], _, st => (⟨"MutableList<Any>", false, none⟩, st)
  | .arr (first :: _), field_name, st =>
    let r := analyze_value base_name first field_name st
    match r.1.nested with
    | some (nested_name, nested_schema) =>
      (⟨"MutableList<" ++ nested_name ++ ">", false, some (nested_name, nested_schema)⟩,
       dictInsert r.2 nested_name nested_schema)
    | none =>
      (⟨"MutableList<" ++ r.1.type ++ ">", false, none⟩, r.2)
  | .obj fields, field_name, st =>
    let nested_name := generate_nested_entity_name field_name base_name
    let r := analyzeFields base_name fields [] [] st
    let st2 := dictUpdate r.2.2 r.2.1
    let st3 := dictInsert st2 nested_name r.1
    (⟨nested_name, false, some (nested_name, r.1)⟩, st3)
  | .other, _, st => (⟨"Any", false, none⟩, st)

/-- The `for key, val in value.items()` loop of analyze_value's dict branch:
builds nested_schema and nested_nested while the recursive analyze_value calls
mutate the shared nested_entities dict. -/
def analyzeFields (base_name : String) :
    List (String × Json) → Schema → NestedMap → NestedMap → Schema × NestedMap × NestedMap
  | [], schAcc, nnAcc, st => (schAcc, nnAcc, st)
  | kv :: rest, schAcc, nnAcc, st =>
    let r := analyze_value base_name kv.2 kv.1 st
    let schAcc1 := dictInsert schAcc kv.1 ⟨r.1.type, r.1.nullable⟩
    let nnAcc1 :=
      match r.1.nested with
      | some p => dictInsert nnAcc p.1 p.2
      | none => nnAcc
    analyzeFields base_name rest schAcc1 nnAcc1 r.2

end

/-- The analysis result: \x7b"schema": ..., "nested": ...\x7d. -/
structure AnalyzedSchema where
  schema : Schema
  nested : NestedMap
deriving DecidableEq

/-- The top-level `for key, value in data.items()` loop of
analyze_entity_schema for dict input (fresh nested_entities dict). -/
def analyzeTopFields (base_name : String) : List (String × Json) → Schema → NestedMap → Schema × NestedMap
  | [], schAcc, st => (schAcc, st)
  | kv :: rest, schAcc, st =>
    let r := analyze_value base_name kv.2 kv.1 st
    let schAcc1 := dictInsert schAcc kv.1 ⟨r.1.type, r.1.nullable⟩
    let st2 :=
      match r.1.nested with
      | some p => dictInsert r.2 p.1 p.2
      | none => r.2
    analyzeTopFields base_name rest schAcc1 st2

/-- The dict branch of analyze_entity_schema. -/
def analyzeEntityObj (fields : List (String × Json)) (base_name : String) : AnalyzedSchema :=
  let r := analyzeTopFields base_name fields [] []
  ⟨r.1, r.2⟩

/-- analyze_entity_schema(data, base_name).  For a non-empty list whose first
element is a dict the source recurses on that element with a fresh
nested_entities dict — that recursive call lands in the dict branch,
`analyzeEntityObj`; for a non-dict first element the source computes
`analyze_value(first_item, "")`, discards it, and returns the empty result. -/
def analyze_entity_schema (data : Json) (base_name : String) : AnalyzedSchema :=
  match data with
  | .obj fields => analyzeEntityObj fields base_name
  | .arr (first :: _) =>
    (match first with
     | .obj fields => analyzeEntityObj fields base_name
     | _ => ⟨[], []⟩)
  | _ => ⟨[], []⟩

/-- `d.get(key, default)` for fields whose value the source immediately treats
as a string (calling `.strip()` or `.lower()` on it); a non-string value there
would raise AttributeError in Python — this embedding returns the default in
that unreachable case. -/
def getStrD (fields : List (String × Json)) (k : String) (dflt : String) : String :=
  match fields.find? (fun kv => kv.1 == k) with
  | some kv =>
    (match kv.2 with
     | .str s => s
     | _ => dflt)
  | none => dflt

/-- extract_data_from_response (entity_schema.py).  The input is a dict at
every call site (api.response or raw_content["response"]); a truthy non-dict
input would raise in Python (`in` / `.get` on it) and is embedded as None.
Each wrapper-source is tried in order; an inner `return` short-circuits. -/
def extract_data_from_response (response : Json) : Option Json :=
  match response with
  | .obj fields =>
    if !pyTruthy (.obj fields) then none
    else
      match
        (if hKey fields "responseExample" then
          match getVal fields "responseExample" with
          | .str s =>
            (match jsonLoads s with
             | some (.obj parsed) =>
               if hKey parsed "data" then some (pyOpt (getVal parsed "data"))
               else if hKey parsed "code" && hKey parsed "msg" then some (pyGet parsed "data")
               else none
             | _ => none)
          | _ => none
        else none) with
      | some r => r
      | none =>
        match
          (if hKey fields "responseOriginal" then
            match getVal fields "responseOriginal" with
            | .obj ro => if hKey ro "data" then some (pyOpt (getVal ro "data")) else none
            | _ => none
          else none) with
        | some r => r
        | none =>
          match
            (if hKey fields "responseText" then
              match getVal fields "responseText" with
              | .str s =>
                (match jsonLoads s with
                 | some (.obj parsed) =>
                   if hKey parsed "data" then some (pyOpt (getVal parsed "data")) else none
                 | _ => none)
              | _ => none
            else none) with
          | some r => r
          | none =>
            let ex : Option Json :=
              match pyGet fields "example" with
              | some v => if pyTruthy v then some v else pyGet fields "body"
              | none => pyGet fields "body"
            match ex with
            | some (.obj e) =>
              if hKey e "data" then pyOpt (getVal e "data")
              else if hKey e "code" && hKey e "msg" then pyGet e "data"
              else some (.obj e)
            | some (.str s) =>
              (match jsonLoads s with
               | some (.obj parsed) =>
                 if hKey parsed "data" then pyOpt (getVal parsed "data") else none
               | _ => none)
            | _ => none
  | _ => none

def showdocMetaFields : List String := ["mode", "urlencoded", "formdata", "json", "jsonDesc"]

/-- Python `value == "1"` for an arbitrary value: only the string "1" compares
equal to the string literal. -/
def eqStrOne (v : Json) : Bool :=
  match v with
  | .str s => s == "1"
  | _ => false

/-- The per-entry filter of extract_data_from_request's urlencoded branch: a
dict entry is kept when its stripped name is nonempty AND its disable flag is
not the string "1". -/
def urlencodedItemValid (item : Json) : Bool :=
  match item with
  | .obj ifields =>
    pyStrip (getStrD ifields "name" "") != "" &&
      !(eqStrOne (pyGetD ifields "disable" (.str "0")))
  | _ => false

/-- The per-entry filter of extract_data_from_request's formdata branch: only
the stripped name is checked; the disable flag is not consulted. -/
def formdataItemValid (item : Json) : Bool :=
  match item with
  | .obj ifields => pyStrip (getStrD ifields "name" "") != ""
  | _ => false

/-- extract_data_from_request (entity_schema.py). -/
def extract_data_from_request (params : Json) : Option Json :=
  match params with
  | .obj pfields =>
    if !pyTruthy (.obj pfields) then none
    else
      let mode := pyLower (getStrD pfields "mode" "")
      if mode != "" then
        if mode == "json" then
          let json_str := getStrD pfields "json" ""
          match
            (if json_str != "" && pyStrip json_str != "" then
              match jsonLoads json_str with
              | some (.obj parsed) => some (Json.obj parsed)
              | _ => none
            else none) with
          | some r => some r
          | none =>
            (match pyGetD pfields "jsonDesc" (.arr []) with
             | .arr l =>
               if !l.isEmpty then
                 some (.obj [("__param_list__", .arr l), ("__mode__", .str "json")])
               else none
             | _ => none)
        else if mode == "urlencoded" then
          match pyGetD pfields "urlencoded" (.arr []) with
          | .arr l =>
            if !l.isEmpty then
              let valid := l.filter urlencodedItemValid
              if !valid.isEmpty then
                some (.obj [("__param_list__", .arr valid), ("__mode__", .str mode)])
              else none
            else none
          | _ => none
        else if mode == "formdata" then
          match pyGetD pfields "formdata" (.arr []) with
          | .arr l =>
            if !l.isEmpty then
              let valid := l.filter formdataItemValid
              if !valid.isEmpty then
                some (.obj [("__param_list__", .arr valid), ("__mode__", .str mode)])
              else none
            else none
          | _ => none
        else none
      else
        let filtered := pfields.filter (fun kv => !showdocMetaFields.contains kv.1)
        if !filtered.isEmpty then some (.obj filtered) else none
  | _ => none

/-- _map_showdoc_type_to_kotlin's lookup table (entity_schema.py). -/
def showdocTypeMapping : List (String × String) :=
  [("string", "String"), ("str", "String"), ("int", "Int"), ("integer", "Int"),
   ("long", "Long"), ("float", "Float"), ("double", "Double"),
   ("boolean", "Boolean"), ("bool", "Boolean"),
   ("array", "MutableList<Any>"), ("list", "MutableList<Any>"),
   ("object", "Any"), ("json", "Any"), ("file", "Any")]

def _map_showdoc_type_to_kotlin (param_type : String) : String :=
  let pt := pyStrip (pyLower param_type)
  match showdocTypeMapping.find? (fun kv => kv.1 == pt) with
  | some kv => kv.2
  | none => "String"

/-- build_request_schema_from_params (entity_schema.py). -/
def build_request_schema_from_params (param_list : List Json) : Schema :=
  param_list.foldl (fun schema param =>
    match param with
    | .obj pfields =>
      let name := pyStrip (getStrD pfields "name" "")
      if name == "" then schema
      else
        let param_type := getStrD pfields "type" "string"
        let nullable := !(eqStrOne (pyGetD pfields "require" (.str "1")))
        dictInsert schema name ⟨_map_showdoc_type_to_kotlin param_type, nullable⟩
    | _ => schema) []

/-!
## core/models.py and generator.py — data model and name resolution

The generator's api list holds dicts \x7b"api", "page", "category"\x7d of
dataclasses; Python compares them by value (`dataclass` generates `__eq__`),
which `_resolve_entity_name_conflicts` relies on in `other_api_data !=
api_data` and `api_list.index(api_data)`.  `id(api_data)`, the key of the
returned mapping, is modelled by the entry's position in the input list.
-/

structure ApiDefinition where
  method : String
  url : String
  title : String
  description : String
  request : Option Json
  response : Option Json
  headers : Option Json
  query : Option Json
  body : Option Json

structure Page where
  page_id : String
  page_title : String
  cat_id : String
  author_uid : String
  author_username : String
  api_info : Option ApiDefinition
  ext_info : Option Json
  raw_content : Option Json

/-- Category restricted to its scalar fields; the generator reads only
cat_name, and the recursive pages/children subtrees would affect Python `==`
on api_data only in degenerate duplicate-category scenarios. -/
structure Category where
  cat_id : String
  cat_name : String
  item_id : String
  parent_cat_id : String
  level : Int
  s_number : String

structure ApiData where
  api : ApiDefinition
  page : Option Page
  category : Option Category

def optBeqWith (f : α → α → Bool) : Option α → Option α → Bool
  | none, none => true
  | some a, some b => f a b
  | _, _ => false

/-- Python `==` on ApiDefinition dataclasses. -/
def apiDefinitionBeq (a b : ApiDefinition) : Bool :=
  a.method == b.method && a.url == b.url && a.title == b.title &&
  a.description == b.description &&
  optJsonBeq a.request b.request && optJsonBeq a.response b.response &&
  optJsonBeq a.headers b.headers && optJsonBeq a.query b.query &&
  optJsonBeq a.body b.body

/-- Python `==` on Page dataclasses. -/
def pageBeq (a b : Page) : Bool :=
  a.page_id == b.page_id && a.page_title == b.page_title && a.cat_id == b.cat_id &&
  a.author_uid == b.author_uid && a.author_username == b.author_username &&
  optBeqWith apiDefinitionBeq a.api_info b.api_info &&
  optJsonBeq a.ext_info b.ext_info && optJsonBeq a.raw_content b.raw_content

/-- Python `==` on Category dataclasses (scalar fields). -/
def categoryBeq (a b : Category) : Bool :=
  a.cat_id == b.cat_id && a.cat_name == b.cat_name && a.item_id == b.item_id &&
  a.parent_cat_id == b.parent_cat_id && a.level == b.level && a.s_number == b.s_number

/-- Python `==` on one api_data dict. -/
def apiDataBeq (a b : ApiData) : Bool :=
  apiDefinitionBeq a.api b.api && optBeqWith pageBeq a.page b.page &&
  optBeqWith categoryBeq a.category b.category

/-- The response_data selection shared by the candidate filter and the collect
loop: a truthy page.raw_content["response"] wins, a falsy or absent one falls
back to api.response. -/
def responseDataOf (a : ApiData) : Option Json :=
  let fromPage : Option Json :=
    match a.page with
    | some p =>
      (match p.raw_content with
       | some rc =>
         if pyTruthy rc then
           (match rc with
            | .obj rcf => pyGet rcf "response"
            | _ => none)
         else none
       | none => none)
    | none => none
  match fromPage with
  | some v => if pyTruthy v then some v else a.api.response
  | none => a.api.response

/-- The is_empty check on extracted data: empty dict, empty list, or a string
that strips to nothing. -/
def isEmptyContent : Json → Bool
  | .obj l => l.isEmpty
  | .arr l => l.isEmpty
  | .str s => pyStrip s == ""
  | _ => false

/-- The response-side candidate filter of _resolve_entity_name_conflicts. -/
def isResponseCandidate (a : ApiData) : Bool :=
  match responseDataOf a with
  | some rd =>
    if pyTruthy rd then
      match extract_data_from_response rd with
      | some dc => !isEmptyContent dc
      | none => false
    else false
  | none => false

/-- The request-side candidate filter of _resolve_entity_name_conflicts. -/
def isRequestCandidate (a : ApiData) : Bool :=
  match a.api.body with
  | some b =>
    if pyTruthy b then
      match extract_data_from_request b with
      | some rd =>
        pyTruthy rd &&
          (match rd with
           | .obj _ => true
           | _ => false)
      | none => false
    else false
  | none => false

def isCandidate (entity_type : String) (a : ApiData) : Bool :=
  if entity_type == "response" then isResponseCandidate a
  else if entity_type == "request" then isRequestCandidate a
  else false

/-- The title fallback of the first naming round. -/
def titleFallbackName (entity_type : String) (a : ApiData) : Option String :=
  let title := a.api.title
  let title :=
    match a.page with
    | some p => if p.page_title != "" then p.page_title else title
    | none => title
  if title != "" then
    let title := pyReplace (pyReplace (pyReplace title "-克隆" "") "-副本" "") "-复制" ""
    let title := pyStrip (pyReplace (pyReplace title "API" "") "接口" "")
    let class_name := sanitize_class_name title
    let class_name :=
      if entity_type == "response" then
        (if pyEndsWith class_name "Response" then pyDropRight class_name 8 else class_name)
      else if entity_type == "request" then
        (if !pyEndsWith class_name "Request" then class_name ++ "Request" else class_name)
      else class_name
    if class_name != "" then some class_name else none
  else none

/-- The first-round (depth-1) candidate entity name of
_resolve_entity_name_conflicts for one API: URL at depth 1, else cleaned
title, else a fixed default; always Bean-suffixed. -/
def initialEntityName (entity_type : String) (a : ApiData) : String :=
  let fromUrl : Option String :=
    if a.api.url != "" then
      let class_name := url_path_to_class_name a.api.url "" 1
      if class_name != "" && class_name != "Api" then some class_name else none
    else none
  let entity_name :=
    match fromUrl with
    | some n => n
    | none =>
      (match titleFallbackName entity_type a with
       | some n => n
       | none => if entity_type == "response" then "Data" else "Request")
  if !pyEndsWith entity_name "Bean" then entity_name ++ "Bean" else entity_name

/-- The Bean-suffixed depth-d URL candidate computed inside the conflict loop;
none when the URL yields no usable class name at this depth. -/
def depthCandidate (url : String) (depth : Nat) : Option String :=
  let c := url_path_to_class_name url "" depth
  if c != "" && c != "Api" then
    some (if !pyEndsWith c "Bean" then c ++ "Bean" else c)
  else none

/-- The conflict check at one depth: some other (value-unequal) group member
with a URL produces the same depth-d candidate name. -/
def conflictAt (api_list : List ApiData) (a : ApiData) (depth : Nat) (name : String) : Bool :=
  api_list.any (fun b =>
    !apiDataBeq b a &&
    b.api.url != "" &&
    (match depthCandidate b.api.url depth with
     | some n => n == name
     | none => false))

/-- One depth's acceptance step for one group member: the candidate name when
it exists and no other member collides with it at the same depth. -/
def acceptedAtDepth (api_list : List ApiData) (a : ApiData) (depth : Nat) : Option String :=
  match depthCandidate a.api.url depth with
  | some n => if conflictAt api_list a depth n then none else some n
  | none => none

/-- The `for depth in range(2, 6)` search (fuel-indexed; fuel 4 covers the
four depths, and the loop stops at the first accepted depth). -/
def tryDepthsF (api_list : List ApiData) (a : ApiData) : Nat → Nat → Option String
  | 0, _ => none
  | fuel + 1, depth =>
    if depth > 5 then none
    else
      match acceptedAtDepth api_list a depth with
      | some n => some n
      | none => tryDepthsF api_list a fuel (depth + 1)

/-- `list.index` with a custom equality (Python value equality); total — the
sought element is always a member at the call sites. -/
def idxOfBy (p : α → Bool) : List α → Nat
  | [] => 0
  | x :: rest => if p x then 0 else 1 + idxOfBy p rest

/-- The numeric-suffix fallback: base name with every "Bean" occurrence
removed, the 1-based position of the member in its conflict group, "Bean". -/
def numericFallbackName (entity_name : String) (api_list : List ApiData) (a : ApiData) : String :=
  pyReplace entity_name "Bean" "" ++ toString (idxOfBy (fun b => apiDataBeq b a) api_list + 1) ++ "Bean"

/-- The final name _resolve_entity_name_conflicts assigns to one candidate:
the initial name when its group is a singleton; otherwise the numeric fallback
for URL-less members, else the first accepted depth in 2..5, else the numeric
fallback. -/
def resolvedEntityName (entity_type : String) (cands : List ApiData) (a : ApiData) : String :=
  let entity_name := initialEntityName entity_type a
  let api_list := cands.filter (fun b => initialEntityName entity_type b == entity_name)
  if api_list.length ≤ 1 then entity_name
  else if a.api.url == "" then numericFallbackName entity_name api_list a
  else
    match tryDepthsF api_list a 4 2 with
    | some n => n
    | none => numericFallbackName entity_name api_list a

/-- _resolve_entity_name_conflicts (generator.py): the mapping from the
position of each candidate api_data in the input list to its final entity
name. -/
def _resolve_entity_name_conflicts (apis : List ApiData) (entity_type : String) :
    List (Nat × String) :=
  let cands := (apis.enum).filter (fun ia => isCandidate entity_type ia.2)
  let candVals := cands.map (fun ia => ia.2)
  cands.map (fun ia => (ia.1, resolvedEntityName entity_type candVals ia.2))

/-- `mapping.get(id(api_data))`. -/
def mappingGet (m : List (Nat × String)) (i : Nat) : Option String :=
  match m.find? (fun kv => kv.1 == i) with
  | some kv => some kv.2
  | none => none

/-- `category.cat_name if category else "默认"`. -/
def categoryNameOf (a : ApiData) : String :=
  match a.category with
  | some c => c.cat_name
  | none => "默认"

structure EntityDef where
  schema : Schema
  nested : NestedMap
  category : String
deriving DecidableEq

/-- The response half of one iteration of the collect loop in
_collect_entity_types: the response entity this api_data contributes under its
resolved name, if any.  (The api_data back-reference the source also stores is
the loop variable itself and is omitted from the entry.) -/
def collectResponseEntity (mapping : List (Nat × String)) (i : Nat) (a : ApiData) :
    Option (String × EntityDef) :=
  match responseDataOf a with
  | some rd =>
    if pyTruthy rd then
      match extract_data_from_response rd with
      | some dc =>
        if isEmptyContent dc then none
        else
          match mappingGet mapping i with
          | some entity_name =>
            if entity_name != "" then
              let analyzed := analyze_entity_schema dc entity_name
              if !analyzed.schema.isEmpty then
                some (entity_name, ⟨analyzed.schema, analyzed.nested, categoryNameOf a⟩)
              else none
            else none
          | none => none
      | none => none
    else none
  | none => none

/-- The response side of _collect_entity_types: the entities dict built by the
loop (the request side is a disjoint later block of the same loop, not needed
by the claims). -/
def collectResponseEntities (apis : List ApiData) : List (String × EntityDef) :=
  let mapping := _resolve_entity_name_conflicts apis "response"
  (apis.enum).foldl (fun entities ia =>
    match collectResponseEntity mapping ia.1 ia.2 with
    | some kv => dictInsert entities kv.1 kv.2
    | none => entities) []

/-!
## version_control.py — the persisted manifest
-/

/-- The state of the manifest file on disk as _load_index observes it. -/
inductive FileState where
  | missing
  | unreadable
  | content (text : String)

/-- VersionControlManager._load_index: a missing file loads as an empty dict,
and any read or parse exception is caught and degrades to an empty dict;
otherwise the parsed JSON document is returned as-is. -/
def _load_index : FileState → Json
  | .missing => .obj []
  | .unreadable => .obj []
  | .content t =>
    (match jsonLoads t with
     | some j => j
     | none => .obj [])

/-- One manifest entry as record_file writes it. -/
structure ManifestEntry where
  hash : String
  mtime : Option String
  api_key : Option (String × String)
deriving DecidableEq

abbrev Manifest := List (String × ManifestEntry)

/-- VersionControlManager.record_file: upsert the entry for a path (the mtime
string comes from the filesystem clock and is passed in). -/
def record_file (index : Manifest) (relative_path content_hash : String)
    (mtime : Option String) (api_key : Option (String × String)) : Manifest :=
  dictInsert index relative_path ⟨content_hash, mtime, api_key⟩

/-- VersionControlManager.get_orphaned_api_files: the manifested paths whose
recorded api_key is non-null and not among the current keys, in manifest
order. -/
def get_orphaned_api_files (index : Manifest) (api_keys : List (String × String)) : List String :=
  index.foldl (fun orphaned pe =>
    match pe.2.api_key with
    | some k => if !api_keys.contains k then orphaned ++ [pe.1] else orphaned
    | none => orphaned) []

/-- The Scenario B endpoint: a response example whose data member is the
empty array. -/
def scenarioBApi : ApiData :=
  { api := { method := "GET", url := "/v1/demo/clear", title := "", description := "",
             request := none,
             response := some (.obj [("responseExample",
               .str "\x7b\"code\":0,\"msg\":\"\",\"data\":[]\x7d")]),
             headers := none, query := none, body := none },
    page := none, category := none }

/-- A ShowDoc request body in urlencoded mode carrying the given entries. -/
def urlencodedParams (items : List Json) : Json :=
  .obj [("mode", .str "urlencoded"), ("urlencoded", .arr items)]

/-- A ShowDoc request body in formdata mode carrying the given entries. -/
def formdataParams (items : List Json) : Json :=
  .obj [("mode", .str "formdata"), ("formdata", .arr items)]

/-- A GET endpoint at the given URL with a pre-parsed responseOriginal whose
data member is the non-empty object \x7b"a": 1\x7d (so the endpoint is a
response-entity candidate). -/
def demoApi (u : String) : ApiData :=
  { api := { method := "GET", url := u, title := "demo", description := "",
             request := none,
             response := some (.obj [("responseOriginal", .obj [("data", .obj [("a", .int 1)])])]),
             headers := none, query := none, body := none },
    page := none, category := none }

/-!
## Theorems

The claim theorems are named spec2proof_C1 .. spec2proof_C10.
-/

theorem dictLookup_insert (m : List (String × α)) (k : String) (v : α) :
    dictLookup (dictInsert m k v) k = some v := by
  induction m with
  | nil => simp [dictInsert, dictLookup]
  | cons hd tl ih =>
    by_cases h : hd.1 == k
    · simp [dictInsert, h, dictLookup]
    · simpa [dictInsert, h, dictLookup, List.find?] using ih

theorem dictInsert_mem (m : List (String × α)) (k : String) (v : α) :
    (k, v) ∈ dictInsert m k v := by
  induction m with
  | nil => simp [dictInsert]
  | cons hd tl ih =>
    by_cases h : hd.1 == k
    · simp [dictInsert, h]
    · simp only [dictInsert, h, if_false]
      exact List.mem_cons_of_mem _ ih

/-- C7: SchemaAnalyzer totality — analyze_value is a total function of its
input (it never throws), and a value of unrecognized kind (not null, boolean,
number, string, list or object) degrades to the untyped field
\x7b"type": "Any", nullable: false\x7d, leaving the nested-entity state
untouched, instead of failing the bundle. -/
theorem spec2proof_C7 (base_name field_name : String) (st : NestedMap) :
    analyze_value base_name .other field_name st = (⟨"Any", false, none⟩, st) := by
  simp [analyze_value]

/-- C8: manifest corruption degradation — _load_index yields the empty
manifest for a missing file, for an unreadable file, and for any file content
that fails to parse as JSON; it never raises (it is a total function). -/
theorem spec2proof_C8 :
    _load_index .missing = .obj [] ∧ _load_index .unreadable = .obj [] ∧
      ∀ t, jsonLoads t = none → _load_index (.content t) = .obj [] := by
  refine ⟨rfl, rfl, fun t ht => ?_⟩
  simp [_load_index, ht]

/-- Witness for C8 at a concretely unparsable manifest content. -/
theorem spec2proof_C8_witness : _load_index (.content "not a manifest") = .obj [] :=
  spec2proof_C8.2.2 "not a manifest" rfl

/-- C4: SchemaAnalyzer array rule — (1) only the first element of a non-empty
array decides its type (the analysis of `x :: xs` equals the analysis of
`[x]`); (2) an empty array yields the untyped-array type MutableList<Any>;
(3) if the first element is an object, the nested type generated for it is the
array's reference name, and it is registered in the bundle's nested map;
(4) at top level a non-empty array of objects recurses on its first element
and reuses that element's bundle as the root result. -/
theorem spec2proof_C4 :
    (∀ (base_name field_name : String) (st : NestedMap) (x : Json) (xs : List Json),
       analyze_value base_name (.arr (x :: xs)) field_name st =
         analyze_value base_name (.arr [x]) field_name st) ∧
    (∀ (base_name field_name : String) (st : NestedMap),
       analyze_value base_name (.arr []) field_name st =
         (⟨"MutableList<Any>", false, none⟩, st)) ∧
    (∀ (base_name field_name : String) (st : NestedMap)
       (o : List (String × Json)) (xs : List Json),
       ∃ sch,
         (analyze_value base_name (.obj o) field_name st).1.nested =
           some (generate_nested_entity_name field_name base_name, sch) ∧
         analyze_value base_name (.arr (.obj o :: xs)) field_name st =
           (⟨"MutableList<" ++ generate_nested_entity_name field_name base_name ++ ">", false,
             some (generate_nested_entity_name field_name base_name, sch)⟩,
            dictInsert (analyze_value base_name (.obj o) field_name st).2
              (generate_nested_entity_name field_name base_name) sch) ∧
         dictLookup (analyze_value base_name (.arr (.obj o :: xs)) field_name st).2
           (generate_nested_entity_name field_name base_name) = some sch) ∧
    (∀ (o : List (String × Json)) (xs : List Json) (base_name : String),
       analyze_entity_schema (.arr (.obj o :: xs)) base_name =
         analyze_entity_schema (.obj o) base_name) := by
  refine ⟨?_, ?_, ?_, ?_⟩
  · intro base_name field_name st x xs
    simp only [analyze_value]
  · intro base_name field_name st
    simp only [analyze_value]
  · intro base_name field_name st o xs
    refine ⟨(analyzeFields base_name o [] [] st).1, ?_, ?_, ?_⟩
    · simp only [analyze_value]
    · simp only [analyze_value]
    · simp only [analyze_value, dictLookup_insert]
  · intro o xs base_name
    rfl

/-- C5 counterexample: within one analysis of
\x7b"x": \x7b"p": 1\x7d, "y": \x7b"x": \x7b"q": "s"\x7d\x7d\x7d the nested name
"XBean" is created twice (once for the top-level field "x", once for the inner
field "x" of "y") with two different schemas, and the final bundle holds only
the later one — the first NestedTypeDef has been overwritten, contradicting
uniqueness and immutability. -/
theorem spec2proof_C5_counterexample :
    (analyze_entity_schema (.obj [("x", .obj [("p", .int 1)])]) "DemoBean").nested =
      [("XBean", [("p", ⟨"Int", false⟩)])] ∧
    (analyze_entity_schema
        (.obj [("x", .obj [("p", .int 1)]), ("y", .obj [("x", .obj [("q", .str "s")])])])
        "DemoBean").nested =
      [("XBean", [("q", ⟨"String", false⟩)]),
       ("YBean", [("x", ⟨"XBean", false⟩)])] ∧
    ([("q", (⟨"String", false⟩ : FieldType))] ≠ [("p", ⟨"Int", false⟩)]) := by
  refine ⟨?_, ?_, by decide⟩ <;>
    simp [analyze_entity_schema, analyzeEntityObj, analyzeTopFields, analyze_value,
          analyzeFields, generate_nested_entity_name, sanitize_class_name, to_pascal_case,
          translate_chinese_to_english, kotlinKeywords, pyLower, pyCapitalize, pyEndsWith,
          isPrefixOfList, splitOnPred, isWordChar, dictInsert, dictUpdate, pyDropRight]

/-- C5 amended: nested entity names are derived from the sanitized field name
alone and are not unique within a run; registering a nested definition is a
plain dict insert, so a later definition under the same name overwrites any
earlier one in the bundle (last-wins) — after analyzing an object value, the
bundle maps the generated name to that object's schema regardless of what the
incoming state held under that name. -/
theorem spec2proof_C5 (base_name field_name : String) (o : List (String × Json))
    (st : NestedMap) :
    ∃ sch,
      (analyze_value base_name (.obj o) field_name st).1.nested =
        some (generate_nested_entity_name field_name base_name, sch) ∧
      dictLookup (analyze_value base_name (.obj o) field_name st).2
        (generate_nested_entity_name field_name base_name) = some sch := by
  refine ⟨(analyzeFields base_name o [] [] st).1, ?_, ?_⟩
  · simp only [analyze_value]
  · simp only [analyze_value, dictLookup_insert]

/-- C2: envelope unwrap correctness — whenever the responseExample field is a
string that parses to an object of the fixed wrapper shape (code, msg and data
keys present), extract_data_from_response yields the data member, not the
wrapper; in particular the spec's example unwraps to \x7b"a": 1\x7d, whose
analysis (the value SchemaAnalyzer is handed in _collect_entity_types) is the
root schema \x7b"a": Int\x7d with no trace of the wrapper keys. -/
theorem spec2proof_C2 (fields parsed : List (String × Json)) (s : String)
    (hkey : hKey fields "responseExample" = true)
    (hval : getVal fields "responseExample" = .str s)
    (hparse : jsonLoads s = some (.obj parsed))
    (_hcode : hKey parsed "code" = true) (_hmsg : hKey parsed "msg" = true)
    (hdata : hKey parsed "data" = true) :
    extract_data_from_response (.obj fields) = pyOpt (getVal parsed "data") ∧
    extract_data_from_response
        (.obj [("responseExample",
                .str "\x7b\"code\":1,\"msg\":\"ok\",\"data\":\x7b\"a\":1\x7d\x7d")]) =
      some (.obj [("a", .int 1)]) ∧
    analyze_entity_schema (.obj [("a", .int 1)]) "DataBean" =
      AnalyzedSchema.mk [("a", ⟨"Int", false⟩)] [] := by
  have htruthy : pyTruthy (.obj fields) = true := by
    cases fields with
    | nil => simp [hKey] at hkey
    | cons kv rest => simp [pyTruthy]
  refine ⟨?_, by rfl, ?_⟩
  · simp [extract_data_from_response, htruthy, hkey, hval, hparse, hdata]
  · simp [analyze_entity_schema, analyzeEntityObj, analyzeTopFields, analyze_value, dictInsert]

/-- Witness for C2 at the spec's wrapper example. -/
theorem spec2proof_C2_witness :
    extract_data_from_response
        (.obj [("responseExample",
                .str "\x7b\"code\":1,\"msg\":\"ok\",\"data\":\x7b\"a\":1\x7d\x7d")]) =
      pyOpt (getVal [("code", .int 1), ("msg", .str "ok"), ("data", .obj [("a", .int 1)])]
        "data") := by
  exact (spec2proof_C2
    [("responseExample", .str "\x7b\"code\":1,\"msg\":\"ok\",\"data\":\x7b\"a\":1\x7d\x7d")]
    [("code", .int 1), ("msg", .str "ok"), ("data", .obj [("a", .int 1)])]
    "\x7b\"code\":1,\"msg\":\"ok\",\"data\":\x7b\"a\":1\x7d\x7d"
    rfl rfl rfl rfl rfl rfl).1

/-- C6: empty-payload suppression — an endpoint whose (truthy) response data
unwraps to an empty list or empty dict is rejected by the candidate filter of
_resolve_entity_name_conflicts and contributes no response entity in
_collect_entity_types, for every mapping and position. -/
theorem spec2proof_C6 (mapping : List (Nat × String)) (i : Nat) (a : ApiData) (rd dc : Json)
    (hrd : responseDataOf a = some rd) (ht : pyTruthy rd = true)
    (hex : extract_data_from_response rd = some dc)
    (hempty : dc = .obj [] ∨ dc = .arr []) :
    collectResponseEntity mapping i a = none ∧ isResponseCandidate a = false := by
  have he : isEmptyContent dc = true := by
    rcases hempty with h | h <;> subst h <;> rfl
  constructor
  · simp [collectResponseEntity, hrd, ht, hex, he]
  · simp [isResponseCandidate, hrd, ht, hex, he]

/-- Witness for C6 at Scenario B's concrete response example. -/
theorem spec2proof_C6_witness :
    collectResponseEntity [] 0 scenarioBApi = none ∧
      isResponseCandidate scenarioBApi = false :=
  spec2proof_C6 [] 0 scenarioBApi
    (.obj [("responseExample", .str "\x7b\"code\":0,\"msg\":\"\",\"data\":[]\x7d")])
    (.arr []) rfl rfl rfl (Or.inr rfl)

/-- get_orphaned_api_files, rewritten from its append-accumulating loop into a
filter-then-project form. -/
theorem get_orphaned_eq (index : Manifest) (api_keys : List (String × String)) :
    get_orphaned_api_files index api_keys =
      (index.filter (fun pe =>
        match pe.2.api_key with
        | some k => !api_keys.contains k
        | none => false)).map Prod.fst := by
  have h : ∀ (idx : Manifest) (acc : List String),
      idx.foldl (fun orphaned pe =>
        match pe.2.api_key with
        | some k => if !api_keys.contains k then orphaned ++ [pe.1] else orphaned
        | none => orphaned) acc
        = acc ++ (idx.filter (fun pe =>
            match pe.2.api_key with
            | some k => !api_keys.contains k
            | none => false)).map Prod.fst := by
    intro idx
    induction idx with
    | nil => intro acc; simp
    | cons pe rest ih =>
      intro acc
      rw [List.foldl_cons, List.filter_cons]
      rw [ih]
      rcases hk : pe.2.api_key with _ | K
      · simp [hk]
      · cases hc : api_keys.contains K with
        | true =>
          have hm : K ∈ api_keys := List.elem_iff.mp hc
          simp [hk, hm]
        | false =>
          have hm : K ∉ api_keys := by simpa using hc
          simp [hk, hm]
  exact h index []

/-- C9: orphan detection — a path is returned by get_orphaned_api_files
exactly when the manifest holds an entry for it whose recorded api_key is
non-null and absent from the current endpoint key set; in particular every
manifest entry for a path P tagged with a key K outside the current set
contributes P to the result. -/
theorem spec2proof_C9 (index : Manifest) (api_keys : List (String × String)) (p : String) :
    p ∈ get_orphaned_api_files index api_keys ↔
      ∃ e : ManifestEntry, (p, e) ∈ index ∧ ∃ K, e.api_key = some K ∧ K ∉ api_keys := by
  rw [get_orphaned_eq]
  simp only [List.mem_map, List.mem_filter]
  constructor
  · rintro ⟨⟨p1, e⟩, ⟨hmem, hq⟩, hp⟩
    simp only at hp
    subst hp
    rcases hk : e.api_key with _ | K
    · rw [hk] at hq
      simp at hq
    · rw [hk] at hq
      have hnot : K ∉ api_keys := by simpa using hq
      exact ⟨e, hmem, K, hk, hnot⟩
  · rintro ⟨e, hmem, K, hk, hnot⟩
    refine ⟨(p, e), ⟨hmem, ?_⟩, rfl⟩
    rw [hk]
    simpa using hnot

/-- Witness for C9: a two-entry manifest where one recorded endpoint key has
disappeared from the current run's key set. -/
theorem spec2proof_C9_witness :
    "api/user/UserBean.kt" ∈
      get_orphaned_api_files
        [("api/user/UserBean.kt", ⟨"h1", none, some ("/v1/user", "GET")⟩),
         ("api/order/OrderBean.kt", ⟨"h2", none, some ("/v1/order", "GET")⟩)]
        [("/v1/order", "GET")] :=
  (spec2proof_C9 _ _ _).mpr
    ⟨⟨"h1", none, some ("/v1/user", "GET")⟩, by simp, ("/v1/user", "GET"), rfl, by decide⟩

/-- extract_data_from_request on a non-empty urlencoded body: the returned
param list is the urlencoded list filtered by urlencodedItemValid. -/
theorem extract_urlencoded (x : Json) (xs : List Json) :
    extract_data_from_request (urlencodedParams (x :: xs)) =
      (if !((x :: xs).filter urlencodedItemValid).isEmpty then
        some (.obj [("__param_list__", .arr ((x :: xs).filter urlencodedItemValid)),
                    ("__mode__", .str "urlencoded")])
       else none) := rfl

/-- extract_data_from_request on a non-empty formdata body: the returned param
list is the formdata list filtered by formdataItemValid. -/
theorem extract_formdata (x : Json) (xs : List Json) :
    extract_data_from_request (formdataParams (x :: xs)) =
      (if !((x :: xs).filter formdataItemValid).isEmpty then
        some (.obj [("__param_list__", .arr ((x :: xs).filter formdataItemValid)),
                    ("__mode__", .str "formdata")])
       else none) := rfl

theorem paramList_shape (f l : List Json) (m : String)
    (h : (if !f.isEmpty then
            some (Json.obj [("__param_list__", .arr f), ("__mode__", .str m)])
          else none) =
         some (Json.obj [("__param_list__", .arr l), ("__mode__", .str m)])) :
    l = f := by
  cases hf : f.isEmpty with
  | true => rw [hf] at h; simp at h
  | false =>
    rw [hf] at h
    simp only [Bool.not_false, if_true, Option.some.injEq, Json.obj.injEq,
      List.cons.injEq, Prod.mk.injEq, Json.arr.injEq] at h
    exact h.1.2.symm

/-- C10: disabled-parameter asymmetry — for a dict entry of a request body's
parameter list: in urlencoded mode an entry whose disable flag is the string
"1" never appears in the returned param list; in formdata mode an entry with a
nonempty (stripped) name is retained no matter what its disable flag holds;
and an entry with an empty name is skipped in both modes. -/
theorem spec2proof_C10 (items : List Json) (item : Json) (ifields : List (String × Json))
    (hobj : item = .obj ifields) (hmem : item ∈ items) :
    ((pyGetD ifields "disable" (.str "0") = .str "1") →
       ∀ l, extract_data_from_request (urlencodedParams items) =
           some (.obj [("__param_list__", .arr l), ("__mode__", .str "urlencoded")]) →
         item ∉ l) ∧
    (pyStrip (getStrD ifields "name" "") ≠ "" →
       ∃ l, extract_data_from_request (formdataParams items) =
           some (.obj [("__param_list__", .arr l), ("__mode__", .str "formdata")]) ∧
         item ∈ l) ∧
    (pyStrip (getStrD ifields "name" "") = "" →
       (∀ l, extract_data_from_request (urlencodedParams items) =
           some (.obj [("__param_list__", .arr l), ("__mode__", .str "urlencoded")]) →
         item ∉ l) ∧
       (∀ l, extract_data_from_request (formdataParams items) =
           some (.obj [("__param_list__", .arr l), ("__mode__", .str "formdata")]) →
         item ∉ l)) := by
  cases items with
  | nil => exact absurd hmem (List.not_mem_nil _)
  | cons x xs =>
    refine ⟨?_, ?_, ?_⟩
    · intro hd l hl
      rw [extract_urlencoded] at hl
      have hlf := paramList_shape _ _ _ hl
      subst hlf
      intro hin
      have hv := (List.mem_filter.mp hin).2
      rw [hobj] at hv
      simp [urlencodedItemValid, hd, eqStrOne] at hv
    · intro hn
      have hv : formdataItemValid item = true := by
        rw [hobj]; simpa [formdataItemValid] using hn
      have hin : item ∈ (x :: xs).filter formdataItemValid :=
        List.mem_filter.mpr ⟨hmem, hv⟩
      refine ⟨(x :: xs).filter formdataItemValid, ?_, hin⟩
      rw [extract_formdata]
      have hne : ((x :: xs).filter formdataItemValid).isEmpty = false := by
        cases hE : ((x :: xs).filter formdataItemValid).isEmpty with
        | false => rfl
        | true =>
          rw [List.isEmpty_iff] at hE
          rw [hE] at hin
          exact absurd hin (List.not_mem_nil _)
      rw [hne]
      rfl
    · intro hn
      constructor
      · intro l hl
        rw [extract_urlencoded] at hl
        have hlf := paramList_shape _ _ _ hl
        subst hlf
        intro hin
        have hv := (List.mem_filter.mp hin).2
        rw [hobj] at hv
        simp [urlencodedItemValid, hn] at hv
      · intro l hl
        rw [extract_formdata] at hl
        have hlf := paramList_shape _ _ _ hl
        subst hlf
        intro hin
        have hv := (List.mem_filter.mp hin).2
        rw [hobj] at hv
        simp [formdataItemValid, hn] at hv

/-- Witness for C10: the entry \x7bname: "a", disable: "1"\x7d is dropped from
a urlencoded body but retained (disable ignored) in a formdata body. -/
theorem spec2proof_C10_witness :
    (Json.obj [("name", .str "a"), ("disable", .str "1")] ∉ [Json.obj [("name", .str "b")]]) ∧
    (∃ l, extract_data_from_request (formdataParams
        [.obj [("name", .str "a"), ("disable", .str "1")], .obj [("name", .str "b")]]) =
        some (.obj [("__param_list__", .arr l), ("__mode__", .str "formdata")]) ∧
      Json.obj [("name", .str "a"), ("disable", .str "1")] ∈ l) := by
  constructor
  · exact (spec2proof_C10
      [.obj [("name", .str "a"), ("disable", .str "1")], .obj [("name", .str "b")]]
      _ _ rfl (List.mem_cons_self _ _)).1 rfl [Json.obj [("name", .str "b")]] rfl
  · exact (spec2proof_C10
      [.obj [("name", .str "a"), ("disable", .str "1")], .obj [("name", .str "b")]]
      _ _ rfl (List.mem_cons_self _ _)).2.1 (by decide)

theorem demoApi_url (u : String) : (demoApi u).api.url = u := rfl

/-- Two demoApi entries compare (Python ==) exactly by their URLs. -/
theorem demoApi_beq (u v : String) : apiDataBeq (demoApi u) (demoApi v) = (u == v) := by
  simp [apiDataBeq, apiDefinitionBeq, optBeqWith, optJsonBeq, jsonBeq, jsonObjSub,
        jsonListBeq, demoApi, Bool.and_comm]

theorem demoApi_cand (u : String) : isCandidate "response" (demoApi u) = true := rfl

/-- C3 counterexample: /v1/user/infoDetail's depth-1 candidate is
"Infodetail" (Python capitalize lowercases the interior capital), not "Info",
so the two endpoints of Scenario A do not collide at all; the resolved names
are InfoBean and InfodetailBean, and even the depth-2 candidate of
/v1/user/infoDetail is "UserInfodetail", not "UserInfoDetail". -/
theorem spec2proof_C3_counterexample :
    initialEntityName "response" (demoApi "/v1/user/infoDetail") = "InfodetailBean" ∧
    initialEntityName "response" (demoApi "/v1/user/info") = "InfoBean" ∧
    ("InfodetailBean" : String) ≠ "InfoBean" ∧
    url_path_to_class_name "/v1/user/infoDetail" "" 2 = "UserInfodetail" ∧
    _resolve_entity_name_conflicts [demoApi "/v1/user/info", demoApi "/v1/user/infoDetail"]
        "response" = [(0, "InfoBean"), (1, "InfodetailBean")] := by
  refine ⟨rfl, rfl, by decide, rfl, rfl⟩

/-- C3 amended: the endpoints /v1/user/info and /v1/user/infoDetail receive
the distinct depth-1 candidates InfoBean and InfodetailBean, so no collision
resolution takes place and both depth-1 names are kept — the final names are
distinct. -/
theorem spec2proof_C3 :
    _resolve_entity_name_conflicts [demoApi "/v1/user/info", demoApi "/v1/user/infoDetail"]
        "response" = [(0, "InfoBean"), (1, "InfodetailBean")] ∧
    ("InfoBean" : String) ≠ "InfodetailBean" :=
  ⟨rfl, by decide⟩

theorem c1_d2x : depthCandidate "/x/a_b/c" 2 = some "ABCBean" := rfl

theorem c1_d2a : depthCandidate "/a/b/c" 2 = some "BCBean" := rfl

theorem c1_d2q : depthCandidate "/q/b/c" 2 = some "BCBean" := rfl

theorem c1_d3x : depthCandidate "/x/a_b/c" 3 = some "XABCBean" := rfl

theorem c1_d3a : depthCandidate "/a/b/c" 3 = some "ABCBean" := rfl

theorem c1_d3q : depthCandidate "/q/b/c" 3 = some "QBCBean" := rfl

theorem c1_d4x : depthCandidate "/x/a_b/c" 4 = some "XABCBean" := rfl

theorem c1_d4a : depthCandidate "/a/b/c" 4 = some "ABCBean" := rfl

theorem c1_d4q : depthCandidate "/q/b/c" 4 = some "QBCBean" := rfl

theorem c1_d5x : depthCandidate "/x/a_b/c" 5 = some "XABCBean" := rfl

theorem c1_d5a : depthCandidate "/a/b/c" 5 = some "ABCBean" := rfl

theorem c1_d5q : depthCandidate "/q/b/c" 5 = some "QBCBean" := rfl

theorem c1_i1 : initialEntityName "response" (demoApi "/x/a_b/c") = "CBean" := rfl

theorem c1_i2 : initialEntityName "response" (demoApi "/a/b/c") = "CBean" := rfl

theorem c1_i3 : initialEntityName "response" (demoApi "/q/b/c") = "CBean" := rfl

set_option maxHeartbeats 1000000 in
/-- C1 counterexample: the three endpoints /x/a_b/c, /a/b/c and /q/b/c all
share the initial depth-1 candidate CBean, yet collision resolution assigns
ABCBean to both of the first two — /x/a_b/c is accepted at depth 2 (its
candidate differs from the others' depth-2 candidates) while /a/b/c is
rejected at depth 2 and accepted at depth 3 with the same name ABCBean,
because each depth only checks the other members' same-depth candidates.  The
resolved names are not pairwise distinct. -/
theorem spec2proof_C1_counterexample :
    (initialEntityName "response" (demoApi "/x/a_b/c") = "CBean" ∧
     initialEntityName "response" (demoApi "/a/b/c") = "CBean" ∧
     initialEntityName "response" (demoApi "/q/b/c") = "CBean") ∧
    _resolve_entity_name_conflicts
        [demoApi "/x/a_b/c", demoApi "/a/b/c", demoApi "/q/b/c"] "response" =
      [(0, "ABCBean"), (1, "ABCBean"), (2, "QBCBean")] := by
  refine ⟨⟨rfl, rfl, rfl⟩, ?_⟩
  simp only [_resolve_entity_name_conflicts, List.enum, List.enumFrom, List.filter,
    demoApi_cand, List.map, resolvedEntityName, c1_i1, c1_i2, c1_i3]
  norm_num [tryDepthsF, acceptedAtDepth, conflictAt, demoApi_url, demoApi_beq,
    c1_d2x, c1_d2a, c1_d2q, c1_d3x, c1_d3a, c1_d3q, List.filter, List.any, c1_i1, c1_i2, c1_i3]
  simp [c1_d4x, c1_d4a, c1_d4q, c1_d5x, c1_d5a, c1_d5q]

theorem depthCandidate_empty (depth : Nat) : depthCandidate "" depth = none := rfl

/-- C1 amended: within one conflict group, names produced by the depth search
at the SAME depth are pairwise distinct — if two value-distinct members are
both accepted at depth d, the acceptance check of each against the other's
depth-d candidate forces their names apart.  (Across different depths, and
between depth-accepted and numeric-fallback names, distinctness fails — see
the counterexample.) -/
theorem spec2proof_C1 (api_list : List ApiData) (a b : ApiData) (depth : Nat) (na nb : String)
    (hmem : b ∈ api_list) (hne : apiDataBeq b a = false)
    (ha : acceptedAtDepth api_list a depth = some na)
    (hb : acceptedAtDepth api_list b depth = some nb) :
    na ≠ nb := by
  intro heq
  have hA : ∃ n, depthCandidate a.api.url depth = some n ∧ n = na ∧
      conflictAt api_list a depth n = false := by
    unfold acceptedAtDepth at ha
    cases hca : depthCandidate a.api.url depth with
    | none =>
      rw [hca] at ha
      exact absurd ha (by simp)
    | some n =>
      rw [hca] at ha
      have ha2 : (if conflictAt api_list a depth n then none else some n) = some na := ha
      cases hcf : conflictAt api_list a depth n with
      | true =>
        rw [hcf] at ha2
        exact absurd ha2 (by simp)
      | false =>
        rw [hcf] at ha2
        simp at ha2
        exact ⟨n, rfl, ha2, hcf⟩
  have hB : ∃ m, depthCandidate b.api.url depth = some m ∧ m = nb := by
    unfold acceptedAtDepth at hb
    cases hcb : depthCandidate b.api.url depth with
    | none =>
      rw [hcb] at hb
      exact absurd hb (by simp)
    | some m =>
      rw [hcb] at hb
      have hb2 : (if conflictAt api_list b depth m then none else some m) = some nb := hb
      cases hcfb : conflictAt api_list b depth m with
      | true =>
        rw [hcfb] at hb2
        exact absurd hb2 (by simp)
      | false =>
        rw [hcfb] at hb2
        simp at hb2
        exact ⟨m, rfl, hb2⟩
  obtain ⟨n, hca, hna, hcf⟩ := hA
  obtain ⟨m, hcb, hnb⟩ := hB
  have hurl : (b.api.url != "") = true := by
    by_cases hu : b.api.url = ""
    · rw [hu, depthCandidate_empty] at hcb
      exact absurd hcb (by simp)
    · simp [hu]
  unfold conflictAt at hcf
  have hfb := (List.any_eq_false.mp hcf) b hmem
  apply hfb
  rw [hne, hurl, hcb]
  simp [hnb, heq, hna]

theorem c1w_dca : depthCandidate "/a/x/c" 3 = some "AXCBean" := rfl

theorem c1w_dcb : depthCandidate "/b/x/c" 3 = some "BXCBean" := rfl

/-- Witness for C1 (amended): the endpoints /a/x/c and /b/x/c are both
accepted at depth 3, and their names differ. -/
theorem spec2proof_C1_witness : ("AXCBean" : String) ≠ "BXCBean" :=
  spec2proof_C1 [demoApi "/a/x/c", demoApi "/b/x/c"] (demoApi "/a/x/c") (demoApi "/b/x/c")
    3 "AXCBean" "BXCBean"
    (List.mem_cons_of_mem _ (List.mem_cons_self _ _))
    (by simp [demoApi_beq])
    (by simp [acceptedAtDepth, conflictAt, demoApi_beq, demoApi_url, c1w_dca, c1w_dcb])
    (by simp [acceptedAtDepth, conflictAt, demoApi_beq, demoApi_url, c1w_dca, c1w_dcb])
